import Mathlib

/-!
Verification of the geofence arrival-detection and deduplicated
notification pipeline of the 360app repository (`MapScreen`, the file
holding `isValidCoordinate`, `markLocationReached`,
`checkLocationAndCircle` and the position-watch callback).

Shallow embedding notes.

* JavaScript numbers are modelled by `JSNum`: `NaN`, the two infinities,
  and finite values as rationals.  `isValidCoordinate` and the `<=`
  comparisons follow JavaScript semantics (any comparison with `NaN` is
  false).
* The source's `getDistance` is an IEEE-754 haversine computation whose
  exact float values the arrival state machine never inspects beyond the
  single comparison `d <= radius`; the embedding therefore takes the
  distance function as an explicit parameter `dist` of type `DistFn`, and
  every theorem quantifies over it, so each theorem holds for the actual
  floating-point haversine in particular.
* `markLocationReached` is an `async` function invoked without `await`.
  Its synchronous prefix (the reached/marking guard, the insertion into
  `markingLocationsRef` and the issuing of the fetch) runs atomically
  inside the sample handler and is embedded as `markLocationReachedStart`;
  the continuation after the fetch resolves is embedded as
  `markLocationReachedFinish`, driven by a separate completion event.
* React `useState` updates (`setHasArrived`, `setLocation`) are modelled
  as taking effect before the next position sample is processed.
* The system is an event system: a trace interleaves position samples
  (each carrying the circle list current at that moment, since the watch
  callback closes over the latest `circles` state) with fetch
  completions.  A completion event is enabled only for a key with an
  outstanding fetch.
-/

/-- Model of a JavaScript number: `NaN`, infinities, or a finite value. -/
inductive JSNum where
  | nan : JSNum
  | posInf : JSNum
  | negInf : JSNum
  | fin : Rat → JSNum
deriving DecidableEq, Repr

/-- JavaScript `<=` on numbers: any comparison involving `NaN` is false. -/
def jsLe : JSNum → JSNum → Bool
  | .nan, _ => false
  | _, .nan => false
  | .negInf, _ => true
  | _, .posInf => true
  | .posInf, _ => false
  | .fin _, .negInf => false
  | .fin a, .fin b => decide (a ≤ b)

/-- JavaScript `isNaN` on a number. -/
def jsIsNaN : JSNum → Bool
  | .nan => true
  | _ => false

/-- JavaScript `isFinite` on a number. -/
def jsIsFinite : JSNum → Bool
  | .fin _ => true
  | _ => false

/-- Source `isValidCoordinate`: both values are numbers (always true in
this model), not `NaN`, finite, with `lat ∈ [-90, 90]` and
`lon ∈ [-180, 180]`. -/
def isValidCoordinate (lat lon : JSNum) : Bool :=
  !jsIsNaN lat && !jsIsNaN lon &&
  jsIsFinite lat && jsIsFinite lon &&
  jsLe (.fin (-90)) lat && jsLe lat (.fin 90) &&
  jsLe (.fin (-180)) lon && jsLe lon (.fin 180)

/-- Source `LocationPoint`: optional numeric id, coordinates, optional
name, optional `metadata.radius` (radius in meters, taken as a rational;
`metadata?.radius` collapses the two optional levels). -/
structure LocationPoint where
  id : Option Int
  latitude : JSNum
  longitude : JSNum
  name : Option String
  radiusMeta : Option Rat
deriving DecidableEq, Repr

/-- Source `CircleData` (the fields the pipeline reads): id, optional
name, `Locations ?? []` as a plain list, optional `metadata.radius`. -/
structure CircleData where
  id : Int
  name : Option String
  locations : List LocationPoint
  radiusMeta : Option Rat
deriving DecidableEq, Repr

/-- The composite geofence key, the template literal
string of circle id and location id joined by a dash. -/
def mkKey (circleId locationId : Int) : String :=
  toString circleId ++ "-" ++ toString locationId

/-- JavaScript truthiness of the optional numeric `id` field:
`if (firstLocation.id)` is taken only when the id is present and not
the number 0. -/
def truthyId : Option Int → Option Int
  | some n => if n = 0 then none else some n
  | none => none

/-- Source: `(c.Locations ?? []).find((loc) => isValidCoordinate(...))` —
the first location of the circle with valid coordinates. -/
def firstValidLocation (c : CircleData) : Option LocationPoint :=
  c.locations.find? (fun loc => isValidCoordinate loc.latitude loc.longitude)

/-- Source: `firstLocation.metadata?.radius ?? c.metadata?.radius ?? 100`. -/
def effectiveRadius (c : CircleData) (loc : LocationPoint) : Rat :=
  loc.radiusMeta.getD (c.radiusMeta.getD 100)

/-- One issued report call: the POST to
`/circles/(circleId)/mark-location-reached` with the location id and the
sample coordinates in the body. -/
structure ReportCall where
  circleId : Int
  locationId : Int
  latitude : JSNum
  longitude : JSNum
deriving DecidableEq, Repr

/-- The geofence key a report call is about. -/
def callKey (r : ReportCall) : String := mkKey r.circleId r.locationId

/-- The mutable session state of `MapScreen` relevant to the arrival
pipeline, plus observation logs.  `reached`, `alerted`, `marking` are the
three `useRef` string sets; `hasArrived` the `useState` flag;
`lastLocation` the `location` state.  `inflight` records the keys of
outstanding (issued, unresolved) fetches; `reportCalls` logs every issued
report call; `alerts` logs every `Alert.alert` (title, message);
`loginRedirects` counts `router.replace` calls to the login screen. -/
structure SysState where
  reached : List String
  alerted : List String
  marking : List String
  hasArrived : Bool
  inflight : List String
  reportCalls : List ReportCall
  alerts : List (String × String)
  loginRedirects : Nat
  lastLocation : Option (JSNum × JSNum)
deriving DecidableEq, Repr

/-- Initial session state: all sets empty, no arrival flag, no location. -/
def initState : SysState :=
  { reached := [], alerted := [], marking := [], hasArrived := false,
    inflight := [], reportCalls := [], alerts := [], loginRedirects := 0,
    lastLocation := none }

/-- Synchronous prefix of source `markLocationReached`: return early if
the key is already reached or already being marked; otherwise add the key
to the marking set and issue the fetch (recorded as a new in-flight key
and a logged report call). -/
def markLocationReachedStart (st : SysState) (circleId locationId : Int)
    (lat lon : JSNum) : SysState :=
  let key := mkKey circleId locationId
  if st.reached.contains key || st.marking.contains key then st
  else
    { st with
        marking := key :: st.marking
        inflight := key :: st.inflight
        reportCalls := ⟨circleId, locationId, lat, lon⟩ :: st.reportCalls }

/-- Outcome of an issued fetch: an HTTP response with a status code, or a
thrown network/transport error. -/
inductive FetchResult where
  | response : Nat → FetchResult
  | thrown : FetchResult
deriving DecidableEq, Repr

/-- `response.ok`: status in the 2xx range. -/
def respOk (status : Nat) : Bool := 200 ≤ status && status ≤ 299

/-- Continuation of source `markLocationReached` once the fetch resolves
for `key`: on 401 the marking entry is deleted and a login redirect
issued; on 2xx the key is added to the reached set; on any other status
or a thrown error the marking entry is deleted; the `finally` block
always deletes the marking entry.  The resolved fetch leaves the
in-flight set. -/
def markLocationReachedFinish (st : SysState) (key : String)
    (r : FetchResult) : SysState :=
  let st0 := { st with inflight := st.inflight.erase key }
  match r with
  | .thrown => { st0 with marking := st0.marking.filter (fun k => k != key) }
  | .response status =>
      if status = 401 then
        { st0 with
            marking := st0.marking.filter (fun k => k != key)
            loginRedirects := st0.loginRedirects + 1 }
      else if respOk status then
        { st0 with
            reached := key :: st0.reached
            marking := st0.marking.filter (fun k => k != key) }
      else
        { st0 with marking := st0.marking.filter (fun k => k != key) }

/-- The distance function.  The source's `getDistance` is a floating
point haversine with Earth radius 6371000 m; the state machine only ever
compares its result against a radius, so it is taken as a parameter and
every theorem quantifies over it. -/
abbrev DistFn := JSNum → JSNum → JSNum → JSNum → JSNum

/-- Accumulator of the `circles.forEach` loop in
`checkLocationAndCircle`: the mutated session state plus the three local
variables of the loop. -/
structure ScanAcc where
  st : SysState
  insideCircle : Bool
  shouldShowAlert : Bool
  alertCircleName : String
deriving DecidableEq, Repr

/-- Body of the `circles.forEach` in source `checkLocationAndCircle`:
pick the first valid location, compare distance against the effective
radius; when inside, set the inside flag and, if the location id is
truthy, snapshot the reached/alerted guards, run the synchronous prefix
of `markLocationReached`, and decide the one-shot alert. -/
def processCircle (dist : DistFn) (userLat userLon : JSNum)
    (acc : ScanAcc) (c : CircleData) : ScanAcc :=
  match firstValidLocation c with
  | none => acc
  | some loc =>
      let radius := effectiveRadius c loc
      if jsLe (dist userLat userLon loc.latitude loc.longitude) (.fin radius) then
        let acc1 := { acc with insideCircle := true }
        match truthyId loc.id with
        | none => acc1
        | some lid =>
            let key := mkKey c.id lid
            let alreadyReached := acc1.st.reached.contains key
            let alreadyAlerted := acc1.st.alerted.contains key
            let st1 := markLocationReachedStart acc1.st c.id lid userLat userLon
            if !alreadyReached && !alreadyAlerted && !acc1.st.hasArrived then
              { acc1 with
                  st := { st1 with alerted := key :: st1.alerted }
                  shouldShowAlert := true
                  alertCircleName := loc.name.getD (c.name.getD "Unknown Circle") }
            else { acc1 with st := st1 }
      else acc

/-- Source `checkLocationAndCircle`: fold the per-circle body over the
circle list, then show the one-shot alert and set `hasArrived` when
requested, or clear `hasArrived` when outside every circle. -/
def checkLocationAndCircle (dist : DistFn) (circles : List CircleData)
    (st : SysState) (userLat userLon : JSNum) : SysState :=
  let acc := circles.foldl (processCircle dist userLat userLon)
    { st := st, insideCircle := false, shouldShowAlert := false,
      alertCircleName := "" }
  if acc.shouldShowAlert then
    { acc.st with
        alerts := ("Arrived",
          "You have entered a circle radius: " ++ acc.alertCircleName)
            :: acc.st.alerts
        hasArrived := true }
  else if !acc.insideCircle then
    { acc.st with hasArrived := false }
  else acc.st

/-- The position-watch callback installed by `startWatch` (the spec's
`onPositionSample`): drop a sample without coordinates, drop an invalid
sample (logged only), otherwise store the location and run
`checkLocationAndCircle`. -/
def onPositionSample (dist : DistFn) (circles : List CircleData)
    (st : SysState) (pos : Option (JSNum × JSNum)) : SysState :=
  match pos with
  | none => st
  | some (lat, lon) =>
      if isValidCoordinate lat lon then
        let st1 := { st with lastLocation := some (lat, lon) }
        checkLocationAndCircle dist circles st1 lat lon
      else st

/-- A system event: a position sample (carrying the circle list the
watch callback currently closes over), or the resolution of an
outstanding fetch for a key. -/
inductive Event where
  | sample : List CircleData → Option (JSNum × JSNum) → Event
  | complete : String → FetchResult → Event
deriving DecidableEq, Repr

/-- One step of the event system.  A completion event is enabled only
for a key with an outstanding fetch. -/
def stepEvent (dist : DistFn) (st : SysState) : Event → Option SysState
  | .sample circles pos => some (onPositionSample dist circles st pos)
  | .complete key r =>
      if st.inflight.contains key then some (markLocationReachedFinish st key r)
      else none

/-- Run a trace of events from a state; `none` when a completion event
is not enabled. -/
def runEvents (dist : DistFn) : SysState → List Event → Option SysState
  | st, [] => some st
  | st, e :: es =>
      match stepEvent dist st e with
      | some st1 => runEvents dist st1 es
      | none => none

/-- A state reachable from the initial session state by some trace. -/
def Reachable (dist : DistFn) (st : SysState) : Prop :=
  ∃ evs, runEvents dist initState evs = some st

/-- Number of report calls issued so far for a given key. -/
def countCalls (k : String) (st : SysState) : Nat :=
  st.reportCalls.countP (fun r => callKey r == k)

/-- Whether a circle, at the given sample, triggers the arrival pipeline
for key `k`: its first valid location is within the effective radius,
its id is truthy, and the composite key equals `k`. -/
def circleTriggers (dist : DistFn) (userLat userLon : JSNum) (k : String)
    (c : CircleData) : Bool :=
  match firstValidLocation c with
  | none => false
  | some loc =>
      jsLe (dist userLat userLon loc.latitude loc.longitude)
          (.fin (effectiveRadius c loc)) &&
      match truthyId loc.id with
      | none => false
      | some lid => mkKey c.id lid == k

/-- The spec's per-key `VisitRecord` states. -/
inductive VisitState where
  | outside : VisitState
  | insideUnconfirmed : VisitState
  | insideConfirmed : VisitState
deriving DecidableEq, Repr

/-- Modelled from the spec: the `VisitRecord` abstraction (§3) does not
exist as code; the source tracks only the reached/marking sets.  Per the
spec's definitions, a key is `Inside-Confirmed` once the backend has
acknowledged it (the key is in the reached set), `Inside-Unconfirmed`
when the latest sample is within the radius and it is not confirmed, and
`Outside` otherwise; `lastInside` says whether the latest sample landed
inside the key's fence. -/
def visitState (st : SysState) (k : String) (lastInside : Bool) : VisitState :=
  if st.reached.contains k then .insideConfirmed
  else if lastInside then .insideUnconfirmed
  else .outside

/-! ### Projection helper lemmas -/

theorem markStart_reached (st : SysState) (cid lid : Int) (u v : JSNum) :
    (markLocationReachedStart st cid lid u v).reached = st.reached := by
  simp only [markLocationReachedStart]; split <;> rfl

theorem markStart_alerted (st : SysState) (cid lid : Int) (u v : JSNum) :
    (markLocationReachedStart st cid lid u v).alerted = st.alerted := by
  simp only [markLocationReachedStart]; split <;> rfl

theorem markStart_alerts (st : SysState) (cid lid : Int) (u v : JSNum) :
    (markLocationReachedStart st cid lid u v).alerts = st.alerts := by
  simp only [markLocationReachedStart]; split <;> rfl

theorem markStart_hasArrived (st : SysState) (cid lid : Int) (u v : JSNum) :
    (markLocationReachedStart st cid lid u v).hasArrived = st.hasArrived := by
  simp only [markLocationReachedStart]; split <;> rfl

theorem markFinish_reportCalls (st : SysState) (key : String) (r : FetchResult) :
    (markLocationReachedFinish st key r).reportCalls = st.reportCalls := by
  unfold markLocationReachedFinish
  cases r
  · dsimp only; split
    · rfl
    · split <;> rfl
  · rfl

theorem markFinish_alerts (st : SysState) (key : String) (r : FetchResult) :
    (markLocationReachedFinish st key r).alerts = st.alerts := by
  unfold markLocationReachedFinish
  cases r
  · dsimp only; split
    · rfl
    · split <;> rfl
  · rfl

theorem markFinish_alerted (st : SysState) (key : String) (r : FetchResult) :
    (markLocationReachedFinish st key r).alerted = st.alerted := by
  unfold markLocationReachedFinish
  cases r
  · dsimp only; split
    · rfl
    · split <;> rfl
  · rfl

/-- The marking entry for the resolved key is gone on every path. -/
theorem contains_filter_bne (l : List String) (k : String) :
    (l.filter (fun x => x != k)).contains k = false := by
  simp only [List.contains, List.elem_eq_mem, decide_eq_false_iff_not]
  intro hm
  have := (List.mem_filter.mp hm).2
  simp at this

theorem markFinish_marking (st : SysState) (key : String) (r : FetchResult) :
    (markLocationReachedFinish st key r).marking.contains key = false := by
  unfold markLocationReachedFinish
  cases r
  · dsimp only; split
    · exact contains_filter_bne _ _
    · split
      · exact contains_filter_bne _ _
      · exact contains_filter_bne _ _
  · exact contains_filter_bne _ _

/-! ### Per-key counting lemmas -/

theorem countCalls_markStart (st : SysState) (cid lid : Int) (u v : JSNum)
    (k : String) :
    (markLocationReachedStart st cid lid u v).marking.contains k =
      (st.marking.contains k ||
        ((mkKey cid lid == k) && !st.reached.contains k)) ∧
    countCalls k (markLocationReachedStart st cid lid u v) =
      countCalls k st +
        (if ((mkKey cid lid == k) && !st.reached.contains k
              && !st.marking.contains k) = true then 1 else 0) := by
  simp only [markLocationReachedStart, countCalls]
  by_cases hbk : (mkKey cid lid == k) = true
  · have hek : mkKey cid lid = k := by simpa using hbk
    rw [hek]
    cases hr : st.reached.contains k <;> cases hm : st.marking.contains k <;>
      simp_all [callKey, List.countP_cons]
  · have hbk' : (mkKey cid lid == k) = false := by simpa using hbk
    have hne : ¬(k = mkKey cid lid) := by
      intro he; simp [he] at hbk'
    split <;>
      simp_all [callKey, List.countP_cons, List.contains_cons]

theorem processCircle_key (dist : DistFn) (u v : JSNum) (k : String)
    (acc : ScanAcc) (c : CircleData) :
    (processCircle dist u v acc c).st.reached = acc.st.reached ∧
    (processCircle dist u v acc c).st.marking.contains k =
      (acc.st.marking.contains k ||
        (circleTriggers dist u v k c && !acc.st.reached.contains k)) ∧
    countCalls k (processCircle dist u v acc c).st =
      countCalls k acc.st +
        (if (circleTriggers dist u v k c && !acc.st.reached.contains k
              && !acc.st.marking.contains k) = true then 1 else 0) := by
  cases hfl : firstValidLocation c
  · simp [processCircle, circleTriggers, hfl]
  case some loc =>
    by_cases hin : jsLe (dist u v loc.latitude loc.longitude)
        (.fin (effectiveRadius c loc)) = true
    · cases hid : truthyId loc.id
      · simp [processCircle, circleTriggers, hfl, hin, hid]
      next lid =>
        obtain ⟨hm, hc⟩ := countCalls_markStart acc.st c.id lid u v k
        simp only [processCircle, circleTriggers, hfl, hin, hid, Bool.true_and]
        by_cases hcond : (!acc.st.reached.contains (mkKey c.id lid) &&
            !acc.st.alerted.contains (mkKey c.id lid) && !acc.st.hasArrived) = true
        · rw [if_pos hcond]
          exact ⟨markStart_reached acc.st c.id lid u v, hm, hc⟩
        · rw [if_neg hcond]
          exact ⟨markStart_reached acc.st c.id lid u v, hm, hc⟩
    · have hin' : jsLe (dist u v loc.latitude loc.longitude)
          (.fin (effectiveRadius c loc)) = false := by
        simpa using hin
      simp [processCircle, circleTriggers, hfl, hin']

theorem foldScan_key (dist : DistFn) (u v : JSNum) (k : String) :
    ∀ (circles : List CircleData) (acc : ScanAcc),
    ((circles.foldl (processCircle dist u v) acc).st.reached = acc.st.reached) ∧
    ((circles.foldl (processCircle dist u v) acc).st.marking.contains k =
      (acc.st.marking.contains k ||
        (circles.any (circleTriggers dist u v k) && !acc.st.reached.contains k))) ∧
    (countCalls k (circles.foldl (processCircle dist u v) acc).st =
      countCalls k acc.st +
        (if (circles.any (circleTriggers dist u v k) && !acc.st.reached.contains k
              && !acc.st.marking.contains k) = true then 1 else 0))
  | [], acc => by simp
  | c :: cs, acc => by
    obtain ⟨ih1, ih2, ih3⟩ := foldScan_key dist u v k cs (processCircle dist u v acc c)
    obtain ⟨p1, p2, p3⟩ := processCircle_key dist u v k acc c
    refine ⟨by simpa [p1] using ih1, ?_, ?_⟩
    · rw [List.foldl_cons] at *
      rw [ih2, p1, p2]
      cases ht : circleTriggers dist u v k c <;>
        cases ha : cs.any (circleTriggers dist u v k) <;>
        cases hr : acc.st.reached.contains k <;>
        cases hmm : acc.st.marking.contains k <;> simp_all
    · rw [List.foldl_cons] at *
      rw [ih3, p1, p2, p3]
      cases ht : circleTriggers dist u v k c <;>
        cases ha : cs.any (circleTriggers dist u v k) <;>
        cases hr : acc.st.reached.contains k <;>
        cases hmm : acc.st.marking.contains k <;> simp_all

theorem checkLocationAndCircle_key (dist : DistFn) (circles : List CircleData)
    (st : SysState) (u v : JSNum) (k : String) :
    (checkLocationAndCircle dist circles st u v).reached = st.reached ∧
    (checkLocationAndCircle dist circles st u v).marking.contains k =
      (st.marking.contains k ||
        (circles.any (circleTriggers dist u v k) && !st.reached.contains k)) ∧
    countCalls k (checkLocationAndCircle dist circles st u v) =
      countCalls k st +
        (if (circles.any (circleTriggers dist u v k) && !st.reached.contains k
              && !st.marking.contains k) = true then 1 else 0) := by
  obtain ⟨f1, f2, f3⟩ := foldScan_key dist u v k circles
    { st := st, insideCircle := false, shouldShowAlert := false,
      alertCircleName := "" }
  simp only [checkLocationAndCircle]
  split
  · exact ⟨f1, f2, by simpa [countCalls] using f3⟩
  · split
    · exact ⟨f1, f2, by simpa [countCalls] using f3⟩
    · exact ⟨f1, f2, f3⟩

theorem onPositionSample_key (dist : DistFn) (circles : List CircleData)
    (st : SysState) (lat lon : JSNum) (k : String)
    (hval : isValidCoordinate lat lon = true) :
    (onPositionSample dist circles st (some (lat, lon))).reached = st.reached ∧
    (onPositionSample dist circles st (some (lat, lon))).marking.contains k =
      (st.marking.contains k ||
        (circles.any (circleTriggers dist lat lon k) && !st.reached.contains k)) ∧
    countCalls k (onPositionSample dist circles st (some (lat, lon))) =
      countCalls k st +
        (if (circles.any (circleTriggers dist lat lon k) && !st.reached.contains k
              && !st.marking.contains k) = true then 1 else 0) := by
  obtain ⟨f1, f2, f3⟩ := checkLocationAndCircle_key dist circles
    { st with lastLocation := some (lat, lon) } lat lon k
  simp only [onPositionSample, hval, if_pos]
  exact ⟨f1, f2, by simpa [countCalls] using f3⟩

theorem onPositionSample_invalid (dist : DistFn) (circles : List CircleData)
    (st : SysState) (lat lon : JSNum)
    (hval : isValidCoordinate lat lon = false) :
    onPositionSample dist circles st (some (lat, lon)) = st := by
  simp [onPositionSample, hval]

theorem onPositionSample_none (dist : DistFn) (circles : List CircleData)
    (st : SysState) : onPositionSample dist circles st none = st := rfl

/-! ### The session-state invariant -/

/-- Invariant of the arrival pipeline state: at most one outstanding
fetch per key, outstanding fetches are exactly the claimed (marking)
keys, no outstanding fetch for an already-confirmed key, confirmations
and alert bookkeeping are duplicate-free, and no more alerts were shown
than keys recorded as alerted. -/
structure GoodState (st : SysState) : Prop where
  inflight_nodup : st.inflight.Nodup
  inflight_marking : ∀ x ∈ st.inflight, x ∈ st.marking
  marking_inflight : ∀ x ∈ st.marking, x ∈ st.inflight
  inflight_not_reached : ∀ x ∈ st.inflight, x ∉ st.reached
  reached_nodup : st.reached.Nodup
  alerted_nodup : st.alerted.Nodup
  alerts_le : st.alerts.length ≤ st.alerted.length

theorem goodState_init : GoodState initState := by
  constructor <;> simp [initState]

theorem goodState_markStart {st : SysState} (h : GoodState st)
    (cid lid : Int) (u v : JSNum) :
    GoodState (markLocationReachedStart st cid lid u v) := by
  simp only [markLocationReachedStart]
  split
  · exact h
  next hg =>
    rw [Bool.or_eq_true, not_or] at hg
    obtain ⟨hg1, hg2⟩ := hg
    have hkr : mkKey cid lid ∉ st.reached := by
      simpa [List.contains] using hg1
    have hkm : mkKey cid lid ∉ st.marking := by
      simpa [List.contains] using hg2
    have hki : mkKey cid lid ∉ st.inflight := fun hx => hkm (h.inflight_marking _ hx)
    refine ⟨List.nodup_cons.mpr ⟨hki, h.inflight_nodup⟩, ?_, ?_, ?_,
      h.reached_nodup, h.alerted_nodup, h.alerts_le⟩
    · intro x hx
      rcases List.mem_cons.mp hx with he | hm
      · exact he ▸ List.mem_cons_self _ _
      · exact List.mem_cons_of_mem _ (h.inflight_marking x hm)
    · intro x hx
      rcases List.mem_cons.mp hx with he | hm
      · exact he ▸ List.mem_cons_self _ _
      · exact List.mem_cons_of_mem _ (h.marking_inflight x hm)
    · intro x hx
      rcases List.mem_cons.mp hx with he | hm
      · exact he ▸ hkr
      · exact h.inflight_not_reached x hm

theorem goodState_processCircle {acc : ScanAcc} (h : GoodState acc.st)
    (dist : DistFn) (u v : JSNum) (c : CircleData) :
    GoodState (processCircle dist u v acc c).st := by
  cases hfl : firstValidLocation c
  · simpa [processCircle, hfl] using h
  next loc =>
    by_cases hin : jsLe (dist u v loc.latitude loc.longitude)
        (.fin (effectiveRadius c loc)) = true
    · cases hid : truthyId loc.id
      · simpa [processCircle, hfl, hin, hid] using h
      next lid =>
        simp only [processCircle, hfl, hin, hid, Bool.true_and]
        have h1 := goodState_markStart h c.id lid u v
        by_cases hcond : (!acc.st.reached.contains (mkKey c.id lid) &&
            !acc.st.alerted.contains (mkKey c.id lid) && !acc.st.hasArrived) = true
        · rw [if_pos hcond]
          have hA : mkKey c.id lid ∉ acc.st.alerted := by
            intro hmem
            simp [List.contains, hmem] at hcond
          have hA1 : mkKey c.id lid ∉
              (markLocationReachedStart acc.st c.id lid u v).alerted := by
            rw [markStart_alerted]; exact hA
          refine ⟨h1.inflight_nodup, h1.inflight_marking, h1.marking_inflight,
            h1.inflight_not_reached, h1.reached_nodup,
            List.nodup_cons.mpr ⟨hA1, h1.alerted_nodup⟩,
            Nat.le_succ_of_le h1.alerts_le⟩
        · rw [if_neg hcond]
          exact h1
    · have hin' : jsLe (dist u v loc.latitude loc.longitude)
          (.fin (effectiveRadius c loc)) = false := by simpa using hin
      simpa [processCircle, hfl, hin'] using h

theorem goodState_foldScan (dist : DistFn) (u v : JSNum) :
    ∀ (circles : List CircleData) (acc : ScanAcc), GoodState acc.st →
      GoodState ((circles.foldl (processCircle dist u v) acc)).st
  | [], _, h => h
  | c :: cs, acc, h => by
    rw [List.foldl_cons]
    exact goodState_foldScan dist u v cs _ (goodState_processCircle h dist u v c)

theorem processCircle_alertFacts (dist : DistFn) (u v : JSNum)
    (acc : ScanAcc) (c : CircleData) :
    ((processCircle dist u v acc c).st.alerts = acc.st.alerts) ∧
    (acc.st.alerted.length ≤ (processCircle dist u v acc c).st.alerted.length) ∧
    ((processCircle dist u v acc c).shouldShowAlert = true →
      acc.shouldShowAlert = true ∨
      acc.st.alerted.length + 1 ≤ (processCircle dist u v acc c).st.alerted.length) := by
  cases hfl : firstValidLocation c
  · simp [processCircle, hfl]
  next loc =>
    by_cases hin : jsLe (dist u v loc.latitude loc.longitude)
        (.fin (effectiveRadius c loc)) = true
    · cases hid : truthyId loc.id
      · simp [processCircle, hfl, hin, hid]
      next lid =>
        simp only [processCircle, hfl, hin, hid, Bool.true_and]
        by_cases hcond : (!acc.st.reached.contains (mkKey c.id lid) &&
            !acc.st.alerted.contains (mkKey c.id lid) && !acc.st.hasArrived) = true
        · rw [if_pos hcond]
          refine ⟨markStart_alerts acc.st c.id lid u v, ?_, fun _ => Or.inr ?_⟩
          · show acc.st.alerted.length ≤ (mkKey c.id lid ::
              (markLocationReachedStart acc.st c.id lid u v).alerted).length
            rw [List.length_cons, markStart_alerted]
            exact Nat.le_succ _
          · show acc.st.alerted.length + 1 ≤ (mkKey c.id lid ::
              (markLocationReachedStart acc.st c.id lid u v).alerted).length
            rw [List.length_cons, markStart_alerted]
        · rw [if_neg hcond]
          refine ⟨markStart_alerts acc.st c.id lid u v, ?_, fun hs => Or.inl hs⟩
          show acc.st.alerted.length ≤
            (markLocationReachedStart acc.st c.id lid u v).alerted.length
          rw [markStart_alerted]
    · have hin' : jsLe (dist u v loc.latitude loc.longitude)
          (.fin (effectiveRadius c loc)) = false := by simpa using hin
      simp [processCircle, hfl, hin']

theorem foldScan_alertFacts (dist : DistFn) (u v : JSNum) :
    ∀ (circles : List CircleData) (acc : ScanAcc),
    ((circles.foldl (processCircle dist u v) acc).st.alerts = acc.st.alerts) ∧
    (acc.st.alerted.length ≤
      (circles.foldl (processCircle dist u v) acc).st.alerted.length) ∧
    ((circles.foldl (processCircle dist u v) acc).shouldShowAlert = true →
      acc.shouldShowAlert = true ∨
      acc.st.alerted.length + 1 ≤
        (circles.foldl (processCircle dist u v) acc).st.alerted.length)
  | [], acc => ⟨rfl, le_refl _, fun hs => Or.inl hs⟩
  | c :: cs, acc => by
    rw [List.foldl_cons]
    obtain ⟨p1, p2, p3⟩ := processCircle_alertFacts dist u v acc c
    obtain ⟨i1, i2, i3⟩ := foldScan_alertFacts dist u v cs (processCircle dist u v acc c)
    refine ⟨by rw [i1, p1], le_trans p2 i2, fun hs => ?_⟩
    rcases i3 hs with hs1 | hlen
    · rcases p3 hs1 with hs0 | hlen0
      · exact Or.inl hs0
      · exact Or.inr (le_trans hlen0 i2)
    · exact Or.inr (le_trans (Nat.add_le_add_right p2 1) hlen)

theorem goodState_check {st : SysState} (h : GoodState st) (dist : DistFn)
    (circles : List CircleData) (u v : JSNum) :
    GoodState (checkLocationAndCircle dist circles st u v) := by
  have hf := goodState_foldScan dist u v circles
    { st := st, insideCircle := false, shouldShowAlert := false,
      alertCircleName := "" } h
  obtain ⟨a1, a2, a3⟩ := foldScan_alertFacts dist u v circles
    { st := st, insideCircle := false, shouldShowAlert := false,
      alertCircleName := "" }
  dsimp only at a1 a2 a3
  simp only [checkLocationAndCircle]
  split
  next hs =>
    refine ⟨hf.inflight_nodup, hf.inflight_marking, hf.marking_inflight,
      hf.inflight_not_reached, hf.reached_nodup, hf.alerted_nodup, ?_⟩
    dsimp only
    rw [List.length_cons, a1]
    rcases a3 hs with hfalse | hlen
    · exact absurd hfalse (by simp)
    · have h2 := h.alerts_le
      omega
  · split
    · exact ⟨hf.inflight_nodup, hf.inflight_marking, hf.marking_inflight,
        hf.inflight_not_reached, hf.reached_nodup, hf.alerted_nodup, hf.alerts_le⟩
    · exact hf

theorem goodState_onPos {st : SysState} (h : GoodState st) (dist : DistFn)
    (circles : List CircleData) (pos : Option (JSNum × JSNum)) :
    GoodState (onPositionSample dist circles st pos) := by
  cases pos
  · exact h
  next p =>
    obtain ⟨lat, lon⟩ := p
    by_cases hval : isValidCoordinate lat lon = true
    · simp only [onPositionSample, hval, if_pos]
      have hupd : GoodState { st with lastLocation := some (lat, lon) } :=
        ⟨h.inflight_nodup, h.inflight_marking, h.marking_inflight,
         h.inflight_not_reached, h.reached_nodup, h.alerted_nodup, h.alerts_le⟩
      exact goodState_check hupd dist circles lat lon
    · rw [onPositionSample_invalid dist circles st lat lon (by simpa using hval)]
      exact h

theorem goodState_finish {st : SysState} (h : GoodState st) (key : String)
    (r : FetchResult) (hk : st.inflight.contains key = true) :
    GoodState (markLocationReachedFinish st key r) := by
  have hkmem : key ∈ st.inflight := by simpa [List.contains] using hk
  have infl_nodup : (st.inflight.erase key).Nodup := h.inflight_nodup.erase key
  have hsub1 : ∀ x ∈ st.inflight.erase key,
      x ∈ st.marking.filter (fun y => y != key) := by
    intro x hx
    have hxx := (h.inflight_nodup.mem_erase_iff).mp hx
    exact List.mem_filter.mpr ⟨h.inflight_marking x hxx.2, by simpa using hxx.1⟩
  have hsub2 : ∀ x ∈ st.marking.filter (fun y => y != key),
      x ∈ st.inflight.erase key := by
    intro x hx
    obtain ⟨hxm, hxne⟩ := List.mem_filter.mp hx
    have hne : x ≠ key := by simpa using hxne
    exact (List.mem_erase_of_ne hne).mpr (h.marking_inflight x hxm)
  have hnr : ∀ x ∈ st.inflight.erase key, x ∉ st.reached := fun x hx =>
    h.inflight_not_reached x (List.mem_of_mem_erase hx)
  have hknr : key ∉ st.reached := h.inflight_not_reached key hkmem
  unfold markLocationReachedFinish
  cases r
  next status =>
    dsimp only
    split
    · exact ⟨infl_nodup, hsub1, hsub2, hnr, h.reached_nodup,
        h.alerted_nodup, h.alerts_le⟩
    · split
      · refine ⟨infl_nodup, hsub1, hsub2, ?_, ?_,
          h.alerted_nodup, h.alerts_le⟩
        · intro x hx
          have hxx := (h.inflight_nodup.mem_erase_iff).mp hx
          intro hmem
          rcases List.mem_cons.mp hmem with he | hm
          · exact hxx.1 he
          · exact h.inflight_not_reached x hxx.2 hm
        · exact List.nodup_cons.mpr ⟨hknr, h.reached_nodup⟩
      · exact ⟨infl_nodup, hsub1, hsub2, hnr, h.reached_nodup,
          h.alerted_nodup, h.alerts_le⟩
  · exact ⟨infl_nodup, hsub1, hsub2, hnr, h.reached_nodup,
      h.alerted_nodup, h.alerts_le⟩

theorem goodState_stepEvent {dist : DistFn} {st : SysState} {e : Event}
    {st1 : SysState} (h : GoodState st) (hs : stepEvent dist st e = some st1) :
    GoodState st1 := by
  cases e
  next circles pos =>
    simp only [stepEvent] at hs
    cases hs
    exact goodState_onPos h dist circles pos
  next key r =>
    simp only [stepEvent] at hs
    by_cases hk : st.inflight.contains key = true
    · rw [if_pos hk] at hs
      cases hs
      exact goodState_finish h key r hk
    · rw [if_neg hk] at hs
      cases hs

theorem goodState_runEvents (dist : DistFn) :
    ∀ (evs : List Event) (st st2 : SysState), GoodState st →
      runEvents dist st evs = some st2 → GoodState st2
  | [], st, st2, h, hr => by
      simp only [runEvents] at hr
      cases hr
      exact h
  | e :: es, st, st2, h, hr => by
      simp only [runEvents] at hr
      cases hstep : stepEvent dist st e with
      | none => rw [hstep] at hr; cases hr
      | some stm =>
          rw [hstep] at hr
          exact goodState_runEvents dist es stm st2 (goodState_stepEvent h hstep) hr

theorem reachable_goodState {dist : DistFn} {st : SysState}
    (h : Reachable dist st) : GoodState st := by
  obtain ⟨evs, hr⟩ := h
  exact goodState_runEvents dist evs initState st goodState_init hr

theorem markFinish_reached_mono {st : SysState} {key : String} {r : FetchResult}
    {k : String} (h : st.reached.contains k = true) :
    (markLocationReachedFinish st key r).reached.contains k = true := by
  unfold markLocationReachedFinish
  cases r
  next status =>
    dsimp only
    split
    · exact h
    · split
      · simp only [List.contains_cons, h, Bool.or_true]
      · exact h
  · exact h

theorem markFinish_countCalls_eq (st : SysState) (key : String)
    (r : FetchResult) (k : String) :
    countCalls k (markLocationReachedFinish st key r) = countCalls k st := by
  simp [countCalls, markFinish_reportCalls]

theorem stepEvent_reached_frozen {dist : DistFn} {st : SysState} {e : Event}
    {st1 : SysState} {k : String} (hs : stepEvent dist st e = some st1)
    (h : st.reached.contains k = true) :
    st1.reached.contains k = true ∧ countCalls k st1 = countCalls k st := by
  cases e
  next circles pos =>
    simp only [stepEvent] at hs
    cases hs
    cases pos with
    | none => exact ⟨h, rfl⟩
    | some p =>
        obtain ⟨lat, lon⟩ := p
        by_cases hval : isValidCoordinate lat lon = true
        · obtain ⟨f1, f2, f3⟩ := onPositionSample_key dist circles st lat lon k hval
          refine ⟨by rw [f1]; exact h, ?_⟩
          rw [f3, h]
          simp
        · rw [onPositionSample_invalid dist circles st lat lon (by simpa using hval)]
          exact ⟨h, rfl⟩
  next key r =>
    simp only [stepEvent] at hs
    by_cases hk : st.inflight.contains key = true
    · rw [if_pos hk] at hs
      cases hs
      exact ⟨markFinish_reached_mono h, markFinish_countCalls_eq st key r k⟩
    · rw [if_neg hk] at hs
      cases hs

theorem runEvents_reached_frozen (dist : DistFn) (k : String) :
    ∀ (evs : List Event) (st st2 : SysState),
      runEvents dist st evs = some st2 → st.reached.contains k = true →
      st2.reached.contains k = true ∧ countCalls k st2 = countCalls k st
  | [], st, st2, hr, h => by
      simp only [runEvents] at hr
      cases hr
      exact ⟨h, rfl⟩
  | e :: es, st, st2, hr, h => by
      simp only [runEvents] at hr
      cases hstep : stepEvent dist st e with
      | none => rw [hstep] at hr; cases hr
      | some stm =>
          rw [hstep] at hr
          obtain ⟨h1, h2⟩ := stepEvent_reached_frozen hstep h
          obtain ⟨h3, h4⟩ := runEvents_reached_frozen dist k es stm st2 hr h1
          exact ⟨h3, by rw [h4, h2]⟩

/-! ### Concrete fixtures used by witnesses and the counterexample -/

/-- A degenerate distance function: everything is at distance 0. -/
def dist0 : DistFn := fun _ _ _ _ => .fin 0

/-- A distance function depending on the latitudes only, enough to
distinguish inside (equal latitudes, distance 0) from outside samples
(distance 1000). -/
def distW : DistFn := fun lat1 _ lat2 _ =>
  match lat1, lat2 with
  | .fin a, .fin b => if a = b then .fin 0 else .fin 1000
  | _, _ => .nan

/-- A location with id 5, at (10, 10), radius override 50 m. -/
def locW : LocationPoint :=
  { id := some 5, latitude := .fin 10, longitude := .fin 10,
    name := some "Home", radiusMeta := some 50 }

/-- A circle with id 1 holding `locW`. -/
def cW : CircleData :=
  { id := 1, name := some "Crew", locations := [locW], radiusMeta := none }

/-- A position sample at (10, 10) against the circle list `[cW]`. -/
def evIn : Event := .sample [cW] (some (.fin 10, .fin 10))

/-- The session state after one inside sample: the report for key `1-5`
has been issued and is in flight, the alert has been shown. -/
def stW1 : SysState :=
  { reached := [], alerted := ["1-5"], marking := ["1-5"], hasArrived := true,
    inflight := ["1-5"],
    reportCalls := [⟨1, 5, .fin 10, .fin 10⟩],
    alerts := [("Arrived", "You have entered a circle radius: Home")],
    loginRedirects := 0, lastLocation := some (.fin 10, .fin 10) }

/-- The session state after an inside sample followed by a 2xx response:
key `1-5` is confirmed. -/
def stW2 : SysState :=
  { reached := ["1-5"], alerted := ["1-5"], marking := [], hasArrived := true,
    inflight := [],
    reportCalls := [⟨1, 5, .fin 10, .fin 10⟩],
    alerts := [("Arrived", "You have entered a circle radius: Home")],
    loginRedirects := 0, lastLocation := some (.fin 10, .fin 10) }

/-! ### The claims -/

/-- C1: while a report for a key is in flight (the key is in the
marking/claim set), a further inside sample issues no second report call
for that key, and at most one report per key is outstanding in every
reachable state. -/
theorem c1_at_most_one_report_in_flight (dist : DistFn) (st : SysState)
    (k : String) (circles : List CircleData) (lat lon : JSNum)
    (h : Reachable dist st) (hm : st.marking.contains k = true) :
    st.inflight.count k ≤ 1 ∧
    countCalls k (onPositionSample dist circles st (some (lat, lon))) =
      countCalls k st := by
  have hg := reachable_goodState h
  constructor
  · exact List.nodup_iff_count_le_one.mp hg.inflight_nodup k
  · by_cases hval : isValidCoordinate lat lon = true
    · obtain ⟨f1, f2, f3⟩ := onPositionSample_key dist circles st lat lon k hval
      rw [f3, hm]
      simp
    · rw [onPositionSample_invalid dist circles st lat lon (by simpa using hval)]

/-- Witness for C1: in the state right after one inside sample the key
`1-5` is claimed, and a second inside sample issues no new report
call. -/
theorem c1_witness :
    stW1.inflight.count "1-5" ≤ 1 ∧
    countCalls "1-5" (onPositionSample dist0 [cW] stW1
      (some (.fin 10, .fin 10))) = countCalls "1-5" stW1 :=
  c1_at_most_one_report_in_flight dist0 stW1 "1-5" [cW] (.fin 10) (.fin 10)
    ⟨[evIn], by decide⟩ (by decide)

/-- C2: a key is confirmed (added to the reached set) at most once, and
once a key is in the reached set, any further trace leaves it confirmed
and issues no further report call for it. -/
theorem c2_confirmed_once_and_frozen (dist : DistFn) (st : SysState)
    (k : String) (evs2 : List Event) (st2 : SysState)
    (h : Reachable dist st) (hr : st.reached.contains k = true)
    (h2 : runEvents dist st evs2 = some st2) :
    st.reached.count k ≤ 1 ∧ st2.reached.contains k = true ∧
    countCalls k st2 = countCalls k st := by
  have hg := reachable_goodState h
  obtain ⟨a, b⟩ := runEvents_reached_frozen dist k evs2 st st2 h2 hr
  exact ⟨List.nodup_iff_count_le_one.mp hg.reached_nodup k, a, b⟩

/-- Witness for C2: after a 2xx response confirms key `1-5`, a further
inside sample leaves the state unchanged and issues no new report. -/
theorem c2_witness :
    stW2.reached.count "1-5" ≤ 1 ∧ stW2.reached.contains "1-5" = true ∧
    countCalls "1-5" stW2 = countCalls "1-5" stW2 :=
  c2_confirmed_once_and_frozen dist0 stW2 "1-5" [evIn] stW2
    ⟨[evIn, .complete "1-5" (.response 200)], by decide⟩ (by decide) (by decide)

/-- C3 counterexample: after a single inside sample the "Arrived" alert
has already been emitted (one alert logged) although the key was never
confirmed — the reached set is empty and the report is still in flight,
so no 2xx acknowledgment has occurred.  This refutes the claim that the
alert is emitted only on the transition into the confirmed state. -/
theorem c3_counterexample :
    runEvents dist0 initState [evIn] = some stW1 ∧
    stW1.alerts.length = 1 ∧ stW1.reached = [] ∧ stW1.inflight = ["1-5"] :=
  ⟨by decide, by decide, by decide, by decide⟩

/-- C3 (amended): the "Arrived" alert is emitted at most once per
geofence key per session — the alerted-key set never holds duplicates
and the number of emitted alerts never exceeds the number of alerted
keys — and it is emitted on fence entry (the first qualifying inside
sample), not on the transition into the confirmed state. -/
theorem c3_alert_at_most_once_per_key (dist : DistFn) (st : SysState)
    (h : Reachable dist st) :
    st.alerted.Nodup ∧ st.alerts.length ≤ st.alerted.length := by
  have hg := reachable_goodState h
  exact ⟨hg.alerted_nodup, hg.alerts_le⟩

/-- Witness for the amended C3 at the state after one inside sample. -/
theorem c3_witness :
    stW1.alerted.Nodup ∧ stW1.alerts.length ≤ stW1.alerted.length :=
  c3_alert_at_most_once_per_key dist0 stW1 ⟨[evIn], by decide⟩

/-- C4: whatever the outcome of a report (2xx, 401, any other status, or
a thrown transport error), the resolved key is no longer in the
marking/claim set — the claim is released on every code path. -/
theorem c4_claim_released_on_every_path (st : SysState) (key : String)
    (r : FetchResult) :
    (markLocationReachedFinish st key r).marking.contains key = false :=
  markFinish_marking st key r

/-- A failed report outcome: a thrown transport error, or a response
that is neither 2xx nor 401. -/
def failedOutcome : FetchResult → Bool
  | .thrown => true
  | .response status => !(status == 401) && !respOk status

theorem markFinish_fail_reached (st : SysState) (key : String)
    (r : FetchResult) (hf : failedOutcome r = true) :
    (markLocationReachedFinish st key r).reached = st.reached := by
  cases r
  next status =>
    simp only [failedOutcome, Bool.and_eq_true, Bool.not_eq_true'] at hf
    obtain ⟨h401, hok⟩ := hf
    unfold markLocationReachedFinish
    dsimp only
    rw [if_neg (by simpa using h401), if_neg (by simp [hok])]
  · rfl

/-- C5: when a report attempt for a key fails (non-2xx, non-401
response, or a transport error), the key is not confirmed, its claim is
released, and the next valid sample still inside the fence issues
exactly one new report call for that key. -/
theorem c5_failure_releases_and_next_sample_retries_once
    (dist : DistFn) (st : SysState) (k : String) (r : FetchResult)
    (circles : List CircleData) (lat lon : JSNum)
    (h : Reachable dist st) (hin : st.inflight.contains k = true)
    (hf : failedOutcome r = true)
    (hval : isValidCoordinate lat lon = true)
    (htrig : circles.any (circleTriggers dist lat lon k) = true) :
    (markLocationReachedFinish st k r).reached.contains k = false ∧
    (markLocationReachedFinish st k r).marking.contains k = false ∧
    countCalls k (onPositionSample dist circles
        (markLocationReachedFinish st k r) (some (lat, lon))) =
      countCalls k (markLocationReachedFinish st k r) + 1 := by
  have hg := reachable_goodState h
  have hkmem : k ∈ st.inflight := by simpa [List.contains] using hin
  have hknr : k ∉ st.reached := hg.inflight_not_reached k hkmem
  have h1 : (markLocationReachedFinish st k r).reached = st.reached :=
    markFinish_fail_reached st k r hf
  have hrc : (markLocationReachedFinish st k r).reached.contains k = false := by
    rw [h1]
    simpa [List.contains] using hknr
  have hmc : (markLocationReachedFinish st k r).marking.contains k = false :=
    markFinish_marking st k r
  obtain ⟨f1, f2, f3⟩ := onPositionSample_key dist circles
    (markLocationReachedFinish st k r) lat lon k hval
  refine ⟨hrc, hmc, ?_⟩
  rw [f3, hrc, hmc, htrig]
  simp

/-- Witness for C5: the in-flight report for `1-5` comes back with
status 500; the claim is released and the next inside sample issues
exactly one fresh report call. -/
theorem c5_witness :
    (markLocationReachedFinish stW1 "1-5" (.response 500)).reached.contains "1-5"
        = false ∧
    (markLocationReachedFinish stW1 "1-5" (.response 500)).marking.contains "1-5"
        = false ∧
    countCalls "1-5" (onPositionSample dist0 [cW]
        (markLocationReachedFinish stW1 "1-5" (.response 500))
        (some (.fin 10, .fin 10))) =
      countCalls "1-5" (markLocationReachedFinish stW1 "1-5" (.response 500)) + 1 :=
  c5_failure_releases_and_next_sample_retries_once dist0 stW1 "1-5"
    (.response 500) [cW] (.fin 10) (.fin 10)
    ⟨[evIn], by decide⟩ (by decide) (by decide) (by decide) (by decide)

/-- C6: a 401 response releases the claim for the key, signals exactly
one redirect to the login flow, does not confirm the key (the reached
set is unchanged), and shows no alert (the alert log is unchanged). -/
theorem c6_unauthorized_releases_redirects_no_confirm_no_alert
    (st : SysState) (k : String) :
    (markLocationReachedFinish st k (.response 401)).marking.contains k = false ∧
    (markLocationReachedFinish st k (.response 401)).loginRedirects =
      st.loginRedirects + 1 ∧
    (markLocationReachedFinish st k (.response 401)).reached = st.reached ∧
    (markLocationReachedFinish st k (.response 401)).alerts = st.alerts := by
  refine ⟨markFinish_marking st k _, ?_, ?_, markFinish_alerts st k _⟩
  · unfold markLocationReachedFinish
    dsimp only
    rw [if_pos rfl]
  · unfold markLocationReachedFinish
    dsimp only
    rw [if_pos rfl]

/-- C7: a sample with invalid coordinates (latitude or longitude out of
range, `NaN`, or non-finite), or with no coordinates at all, leaves the
entire session state unchanged — no set changes, no report call, no
last-known-location update; in the embedding the handler is a total
function, so no exception escapes. -/
theorem c7_invalid_sample_noop (dist : DistFn) (circles : List CircleData)
    (st : SysState) (lat lon : JSNum)
    (h : isValidCoordinate lat lon = false) :
    onPositionSample dist circles st (some (lat, lon)) = st ∧
    onPositionSample dist circles st none = st :=
  ⟨onPositionSample_invalid dist circles st lat lon h, rfl⟩

/-- Witness for C7: latitude 1000 is dropped with no state change. -/
theorem c7_witness :
    onPositionSample dist0 [cW] initState (some (.fin 1000, .fin 0)) =
      initState ∧
    onPositionSample dist0 [cW] initState none = initState :=
  c7_invalid_sample_noop dist0 [cW] initState (.fin 1000) (.fin 0) (by decide)

/-- A location with invalid latitude (200), used as a skipped prefix. -/
def locBad : LocationPoint :=
  { id := some 7, latitude := .fin 200, longitude := .fin 0,
    name := none, radiusMeta := some 30 }

/-- A valid location with no radius override. -/
def locGood : LocationPoint :=
  { id := some 8, latitude := .fin 20, longitude := .fin 20,
    name := some "Second", radiusMeta := none }

/-- A further valid location, ignored because it is not first. -/
def locExtra : LocationPoint :=
  { id := some 9, latitude := .fin 30, longitude := .fin 30,
    name := none, radiusMeta := some 10 }

/-- A circle whose first listed location is invalid and whose
circle-level radius override is 75 m. -/
def cR : CircleData :=
  { id := 3, name := some "R", locations := [locBad, locGood],
    radiusMeta := some 75 }

/-- The initial accumulator of the per-sample circle scan. -/
def accW : ScanAcc :=
  { st := initState, insideCircle := false, shouldShowAlert := false,
    alertCircleName := "" }

/-- C8: geofence evaluation of a circle uses exactly the first location
with valid coordinates — invalid locations are skipped, and appending
further locations (valid or not) after it changes neither the selected
location nor the evaluation — and the effective radius is the
location-level override if present, else the circle-level override, else
100 m. -/
theorem c8_first_valid_location_policy (dist : DistFn) (u v : JSNum)
    (acc : ScanAcc) (c : CircleData) (loc : LocationPoint)
    (h : firstValidLocation c = some loc) :
    isValidCoordinate loc.latitude loc.longitude = true ∧
    (∃ pre post, c.locations = pre ++ loc :: post ∧
      ∀ l ∈ pre, isValidCoordinate l.latitude l.longitude = false) ∧
    (∀ extra, firstValidLocation
        { c with locations := c.locations ++ extra } = some loc) ∧
    (∀ extra, processCircle dist u v acc
        { c with locations := c.locations ++ extra } =
      processCircle dist u v acc c) ∧
    (∀ rl, loc.radiusMeta = some rl → effectiveRadius c loc = rl) ∧
    (loc.radiusMeta = none → ∀ rc, c.radiusMeta = some rc →
      effectiveRadius c loc = rc) ∧
    (loc.radiusMeta = none → c.radiusMeta = none →
      effectiveRadius c loc = 100) := by
  unfold firstValidLocation at h
  obtain ⟨hp, pre, post, heq, hpre⟩ := List.find?_eq_some.mp h
  have hextra : ∀ extra, firstValidLocation
      { c with locations := c.locations ++ extra } = some loc := by
    intro extra
    unfold firstValidLocation
    dsimp only
    rw [List.find?_append, h]
    rfl
  refine ⟨hp, ⟨pre, post, heq, ?_⟩, hextra, ?_, ?_, ?_, ?_⟩
  · intro l hl
    simpa using hpre l hl
  · intro extra
    have h2 := hextra extra
    have h1 : firstValidLocation c = some loc := h
    simp only [processCircle, h1, h2]
    rfl
  · intro rl hrl
    simp [effectiveRadius, hrl]
  · intro hnone rc hrc
    simp [effectiveRadius, hnone, hrc]
  · intro hnone hcnone
    simp [effectiveRadius, hnone, hcnone]

/-- Witness for C8: the circle `cR` selects its second listed location
(the first valid one); appending an extra location changes nothing, and
the effective radius falls back to the circle-level 75 m. -/
theorem c8_witness :
    isValidCoordinate locGood.latitude locGood.longitude = true ∧
    (∃ pre post, cR.locations = pre ++ locGood :: post ∧
      ∀ l ∈ pre, isValidCoordinate l.latitude l.longitude = false) ∧
    (∀ extra, firstValidLocation
        { cR with locations := cR.locations ++ extra } = some locGood) ∧
    (∀ extra, processCircle dist0 (.fin 0) (.fin 0) accW
        { cR with locations := cR.locations ++ extra } =
      processCircle dist0 (.fin 0) (.fin 0) accW cR) ∧
    (∀ rl, locGood.radiusMeta = some rl → effectiveRadius cR locGood = rl) ∧
    (locGood.radiusMeta = none → ∀ rc, cR.radiusMeta = some rc →
      effectiveRadius cR locGood = rc) ∧
    (locGood.radiusMeta = none → cR.radiusMeta = none →
      effectiveRadius cR locGood = 100) :=
  c8_first_valid_location_policy dist0 (.fin 0) (.fin 0) accW cR locGood
    (by decide)

/-- C9: if, before any confirmation and with no report in flight for a
key, a valid sample lands outside the key's fence (no circle triggers
the key) and a later valid sample lands inside (some circle triggers
it), the per-key state goes back to `Outside` and then to
`Inside-Unconfirmed`, and exactly one fresh report call for that key is
issued, by the re-entry sample. -/
theorem c9_exit_reentry_fresh_report (dist : DistFn) (st : SysState)
    (k : String) (circles1 circles2 : List CircleData)
    (lat1 lon1 lat2 lon2 : JSNum)
    (h : Reachable dist st)
    (hr : st.reached.contains k = false) (hm : st.marking.contains k = false)
    (hv1 : isValidCoordinate lat1 lon1 = true)
    (hv2 : isValidCoordinate lat2 lon2 = true)
    (hout : circles1.any (circleTriggers dist lat1 lon1 k) = false)
    (hin2 : circles2.any (circleTriggers dist lat2 lon2 k) = true) :
    countCalls k (onPositionSample dist circles1 st (some (lat1, lon1))) =
      countCalls k st ∧
    visitState (onPositionSample dist circles1 st (some (lat1, lon1))) k false =
      .outside ∧
    countCalls k (onPositionSample dist circles2
        (onPositionSample dist circles1 st (some (lat1, lon1)))
        (some (lat2, lon2))) = countCalls k st + 1 ∧
    visitState (onPositionSample dist circles2
        (onPositionSample dist circles1 st (some (lat1, lon1)))
        (some (lat2, lon2))) k true = .insideUnconfirmed := by
  obtain ⟨f1, f2, f3⟩ := onPositionSample_key dist circles1 st lat1 lon1 k hv1
  have e1 : countCalls k (onPositionSample dist circles1 st (some (lat1, lon1))) =
      countCalls k st := by
    rw [f3, hout]
    simp
  have er : (onPositionSample dist circles1 st (some (lat1, lon1))).reached.contains k
      = false := by
    rw [f1]
    exact hr
  have em : (onPositionSample dist circles1 st (some (lat1, lon1))).marking.contains k
      = false := by
    rw [f2, hout, hm]
    simp
  obtain ⟨g1, g2, g3⟩ := onPositionSample_key dist circles2
    (onPositionSample dist circles1 st (some (lat1, lon1))) lat2 lon2 k hv2
  have e2 : countCalls k (onPositionSample dist circles2
      (onPositionSample dist circles1 st (some (lat1, lon1)))
      (some (lat2, lon2))) = countCalls k st + 1 := by
    rw [g3, er, em, hin2, e1]
    simp
  have er2 : (onPositionSample dist circles2
      (onPositionSample dist circles1 st (some (lat1, lon1)))
      (some (lat2, lon2))).reached.contains k = false := by
    rw [g1]
    exact er
  refine ⟨e1, ?_, e2, ?_⟩
  · unfold visitState
    rw [er]
    rfl
  · unfold visitState
    rw [er2]
    rfl

/-- Witness for C9: from the initial state, a sample at latitude 80 is
outside the fence of `cW` (under `distW`), a following sample at
latitude 10 is inside; exactly one report is issued, on re-entry. -/
theorem c9_witness :
    countCalls "1-5" (onPositionSample distW [cW] initState
      (some (.fin 80, .fin 80))) = countCalls "1-5" initState ∧
    visitState (onPositionSample distW [cW] initState
      (some (.fin 80, .fin 80))) "1-5" false = .outside ∧
    countCalls "1-5" (onPositionSample distW [cW]
        (onPositionSample distW [cW] initState (some (.fin 80, .fin 80)))
        (some (.fin 10, .fin 10))) = countCalls "1-5" initState + 1 ∧
    visitState (onPositionSample distW [cW]
        (onPositionSample distW [cW] initState (some (.fin 80, .fin 80)))
        (some (.fin 10, .fin 10))) "1-5" true = .insideUnconfirmed :=
  c9_exit_reentry_fresh_report distW initState "1-5" [cW] [cW]
    (.fin 80) (.fin 80) (.fin 10) (.fin 10)
    ⟨[], rfl⟩ (by decide) (by decide) (by decide) (by decide)
    (by decide) (by decide)

/-- C10: a circle whose first valid location has a falsy id (absent or
the number 0) is silently skipped by the arrival pipeline when a sample
lands inside its radius: the whole per-sample evaluation leaves the
session state unchanged (no report call, nothing added to the reached,
alerted or marking sets), even though the scan's inside flag is set. -/
theorem c10_falsy_id_skipped (dist : DistFn) (st : SysState)
    (c : CircleData) (loc : LocationPoint) (lat lon : JSNum)
    (hfl : firstValidLocation c = some loc)
    (hid : truthyId loc.id = none)
    (hin : jsLe (dist lat lon loc.latitude loc.longitude)
        (.fin (effectiveRadius c loc)) = true) :
    checkLocationAndCircle dist [c] st lat lon = st ∧
    (processCircle dist lat lon
      { st := st, insideCircle := false, shouldShowAlert := false,
        alertCircleName := "" } c).st = st ∧
    (processCircle dist lat lon
      { st := st, insideCircle := false, shouldShowAlert := false,
        alertCircleName := "" } c).insideCircle = true := by
  have hp : processCircle dist lat lon
      { st := st, insideCircle := false, shouldShowAlert := false,
        alertCircleName := "" } c =
      { st := st, insideCircle := true, shouldShowAlert := false,
        alertCircleName := "" } := by
    simp [processCircle, hfl, hin, hid]
  refine ⟨?_, by rw [hp], by rw [hp]⟩
  simp [checkLocationAndCircle, hp]

/-- A location whose id is the number 0, falsy in JavaScript. -/
def locZ : LocationPoint :=
  { id := some 0, latitude := .fin 10, longitude := .fin 10,
    name := none, radiusMeta := some 50 }

/-- A circle holding only `locZ`. -/
def cZ : CircleData :=
  { id := 2, name := some "Zed", locations := [locZ], radiusMeta := none }

/-- Witness for C10: a location with id 0 inside the fence is skipped
with no state change, while the inside flag is set. -/
theorem c10_witness :
    checkLocationAndCircle dist0 [cZ] initState (.fin 10) (.fin 10) =
      initState ∧
    (processCircle dist0 (.fin 10) (.fin 10)
      { st := initState, insideCircle := false, shouldShowAlert := false,
        alertCircleName := "" } cZ).st = initState ∧
    (processCircle dist0 (.fin 10) (.fin 10)
      { st := initState, insideCircle := false, shouldShowAlert := false,
        alertCircleName := "" } cZ).insideCircle = true :=
  c10_falsy_id_skipped dist0 initState cZ locZ (.fin 10) (.fin 10)
    (by decide) (by decide) (by decide)
